import Mathlib

/-!
Verification development for the TechCrunch crawler (two variants:
`app.py`, the HTML-scraping Azure Function, and `TechCrunchScraper/__init__.py`,
the RSS-feed Azure Function).

The development shallowly embeds the program's data model and operations:

* `PyDateTime` models Python's `datetime.datetime` values (civil fields plus
  an optional fixed UTC offset in minutes; `tz = none` models a naive value).
  Calendar arithmetic uses the standard proleptic-Gregorian day-count
  algorithm, which is exactly the arithmetic underlying CPython's
  `datetime` ordinal conversions.  The zone `Asia/Seoul` (KST) is a fixed
  +09:00 offset for every instant the program can encounter (Korea has had
  no DST and a fixed +09:00 offset since 1988, and all crawled dates are
  modern).
* `pyFromIso` models `datetime.fromisoformat` on the grammar the program
  feeds it (`YYYY-MM-DD[<sep>HH[:MM[:SS[.fff[fff]]]][±HH:MM]]`, ASCII
  digits), returning `none` where CPython raises `ValueError`.
* `pyIsoformat` models `datetime.isoformat`.
* Extractors, link collection, day filtering, query-parameter coercion and
  the feed handler are translated function-by-function from the source.
-/

namespace Crawler

/-! ## Calendar arithmetic -/

/-- Year-of-era estimate used by the day-count inversion algorithm. -/
def yoeOf (doe : Nat) : Nat := (doe - doe / 1460 + doe / 36524 - doe / 146096) / 365

/-- Executable check that the day-of-year value reconstructed from a
day-of-era lies in `[0, 365]`; verified exhaustively over one 400-year era
by the `calChunk` lemmas below. -/
def doyOK (doe : Nat) : Bool :=
  Nat.ble (365 * yoeOf doe + yoeOf doe / 4) (doe + yoeOf doe / 100) &&
    Nat.ble (doe + yoeOf doe / 100) (365 * yoeOf doe + yoeOf doe / 4 + 365)

/-- Conjunction of `doyOK` over the range `[lo, lo + n)`. -/
def rangeOK : Nat → Nat → Bool
  | _, 0 => true
  | lo, n+1 => doyOK (lo + n) && rangeOK lo n

/-- Integer core of the era-based civil-date-to-day-count algorithm; this is
the arithmetic behind CPython `datetime.date.toordinal` (shifted so that
1970-01-01 is day 0). -/
def daysFromCivilI (y m d : Int) : Int :=
  let y' : Int := if m ≤ 2 then y - 1 else y
  let era : Int := y' / 400
  let yoe : Int := y' - era * 400
  let mp : Int := if 3 ≤ m then m - 3 else m + 9
  let doy : Int := (153 * mp + 2) / 5 + d - 1
  let doe : Int := yoe * 365 + yoe / 4 - yoe / 100 + doy
  era * 146097 + doe - 719468

/-- Integer core mapping a day count since 1970-01-01 back to a civil
(year, month, day) triple; inverse of `daysFromCivilI`. -/
def civilFromDaysI (z : Int) : Int × Int × Int :=
  let z' : Int := z + 719468
  let era : Int := z' / 146097
  let doe : Int := z' - era * 146097
  let yoe : Int :=
    (doe - doe / 1460 + doe / 36524 - doe / 146096) / 365
  let y : Int := yoe + era * 400
  let doy : Int := doe - (365 * yoe + yoe / 4 - yoe / 100)
  let mp : Int := (5 * doy + 2) / 153
  let d : Int := doy - (153 * mp + 2) / 5 + 1
  let m : Int := if mp < 10 then mp + 3 else mp - 9
  (if m ≤ 2 then y + 1 else y, m, d)

/-- Civil (proleptic Gregorian) date to day count since 1970-01-01. -/
def daysFromCivil (y : Int) (m d : Nat) : Int :=
  daysFromCivilI y m d

/-- Day count since 1970-01-01 to a civil (year, month, day) triple. -/
def civilFromDays (z : Int) : Int × Nat × Nat :=
  ((civilFromDaysI z).1, (civilFromDaysI z).2.1.toNat, (civilFromDaysI z).2.2.toNat)

/-! ## Python datetime model -/

/-- Model of a Python `datetime.datetime` value: civil fields plus an
optional fixed UTC offset in minutes (`tz = none` models a naive value). -/
structure PyDateTime where
  year : Int
  month : Nat
  day : Nat
  hour : Nat
  minute : Nat
  second : Nat
  micro : Nat
  tz : Option Int
deriving DecidableEq, Repr

/-- Timezone assumed for naive datetimes by `astimezone` (the host runs in
UTC; Azure Functions containers use UTC). -/
def systemTz : Int := 0

/-- Offset used in epoch arithmetic: the value's own offset, or the system
offset when naive. -/
def tzOrSystem (d : PyDateTime) : Int := d.tz.getD systemTz

/-- Seconds since 1970-01-01T00:00:00Z denoted by a datetime value
(microseconds ignored, as in all comparisons the program performs). -/
def toEpochSeconds (d : PyDateTime) : Int :=
  daysFromCivil d.year d.month d.day * 86400 +
    (d.hour : Int) * 3600 + (d.minute : Int) * 60 + (d.second : Int) - tzOrSystem d * 60

/-- Model of Python `datetime.astimezone(timezone(timedelta(minutes = tz)))`:
same instant re-expressed with the target fixed offset. -/
def astimezone (d : PyDateTime) (tz : Int) : PyDateTime :=
  let s : Int := toEpochSeconds d + tz * 60
  let days : Int := s / 86400
  let r : Nat := (s % 86400).toNat
  ⟨(civilFromDays days).1, (civilFromDays days).2.1, (civilFromDays days).2.2,
    r / 3600, r % 3600 / 60, r % 60, d.micro, some tz⟩

/-- The fixed offset of Asia/Seoul (KST) in minutes. -/
def KST : Int := 540

/-- The date component of a datetime value, as Python `.date()` equality
compares it. -/
def dateTriple (d : PyDateTime) : Int × Nat × Nat := (d.year, d.month, d.day)

/-! ## ISO-8601 parsing (`datetime.fromisoformat`) and formatting -/

/-- Numeric value of an ASCII digit. -/
def digitVal (c : Char) : Option Nat := if c.isDigit then some (c.toNat - 48) else none

/-- Read exactly two digits. -/
def read2 : List Char → Option (Nat × List Char)
  | a :: b :: rest =>
      match digitVal a, digitVal b with
      | some x, some y => some (10 * x + y, rest)
      | _, _ => none
  | _ => none

/-- Read exactly four digits. -/
def read4 (l : List Char) : Option (Nat × List Char) :=
  match read2 l with
  | some (hi, rest) =>
      match read2 rest with
      | some (lo, rest2) => some (100 * hi + lo, rest2)
      | none => none
  | none => none

/-- Read exactly three digits. -/
def read3 (l : List Char) : Option (Nat × List Char) :=
  match read2 l with
  | some (hi, rest) =>
      match rest with
      | c :: rest2 =>
          match digitVal c with
          | some x => some (10 * hi + x, rest2)
          | none => none
      | [] => none
  | none => none

/-- Read exactly six digits. -/
def read6 (l : List Char) : Option (Nat × List Char) :=
  match read3 l with
  | some (hi, rest) =>
      match read3 rest with
      | some (lo, rest2) => some (1000 * hi + lo, rest2)
      | none => none
  | none => none

/-- Read a fractional-seconds field of exactly three or six digits, as
CPython 3.10 `fromisoformat` accepts, yielding microseconds. -/
def readFrac (l : List Char) : Option (Nat × List Char) :=
  match read6 l with
  | some (us, rest) => some (us, rest)
  | none =>
      match read3 l with
      | some (ms, rest) => some (ms * 1000, rest)
      | none => none

/-- Gregorian leap-year test (as in CPython `calendar.isleap`). -/
def isLeapYear (y : Int) : Bool := (y % 4 == 0 && y % 100 != 0) || y % 400 == 0

/-- Number of days in a civil month. -/
def daysInMonth (y : Int) (m : Nat) : Nat :=
  if m = 2 then (if isLeapYear y then 29 else 28)
  else if m = 4 ∨ m = 6 ∨ m = 9 ∨ m = 11 then 30 else 31

/-- Validity of a civil date as enforced by the `datetime` constructor. -/
def validDate (y : Int) (m d : Nat) : Bool :=
  decide (1 ≤ y) && decide (y ≤ 9999) && decide (1 ≤ m) && decide (m ≤ 12) &&
    decide (1 ≤ d) && decide (d ≤ daysInMonth y m)

/-- Read a `±HH:MM` timezone tail (sign already consumed), returning the
offset in minutes; the offset must be strictly less than 24 hours in
magnitude, as `datetime.timezone` requires. -/
def readTzTail (sign : Int) (l : List Char) : Option Int :=
  match read2 l with
  | some (hh, rest) =>
      match rest with
      | ':' :: rest2 =>
          match read2 rest2 with
          | some (mm, []) =>
              if decide (hh ≤ 23) && decide (mm ≤ 59) then
                some (sign * ((hh : Int) * 60 + mm))
              else none
          | _ => none
      | _ => none
  | none => none

/-- Read a time-of-day `HH[:MM[:SS[.fff[fff]]]]` prefix, returning hour,
minute, second, microsecond and the remaining characters. -/
def readTime (l : List Char) : Option (Nat × Nat × Nat × Nat × List Char) :=
  match read2 l with
  | none => none
  | some (h, r1) =>
      match r1 with
      | ':' :: r2 =>
          match read2 r2 with
          | none => none
          | some (mi, r3) =>
              match r3 with
              | ':' :: r4 =>
                  match read2 r4 with
                  | none => none
                  | some (s, r5) =>
                      match r5 with
                      | '.' :: r6 =>
                          match readFrac r6 with
                          | some (us, r7) => some (h, mi, s, us, r7)
                          | none => none
                      | _ => some (h, mi, s, 0, r5)
              | _ => some (h, mi, 0, 0, r3)
      | _ => some (h, 0, 0, 0, r1)

/-- Model of CPython `datetime.fromisoformat` on the grammar
`YYYY-MM-DD[<sep>HH[:MM[:SS[.fff[fff]]]][±HH:MM]]` (any single separator
character, ASCII digits), returning `none` where CPython raises. -/
def pyFromIsoList (l : List Char) : Option PyDateTime :=
  match read4 l with
  | none => none
  | some (y, r1) =>
      match r1 with
      | '-' :: r2 =>
          match read2 r2 with
          | none => none
          | some (mo, r3) =>
              match r3 with
              | '-' :: r4 =>
                  match read2 r4 with
                  | none => none
                  | some (d, r5) =>
                      match r5 with
                      | [] =>
                          if validDate y mo d then some ⟨y, mo, d, 0, 0, 0, 0, none⟩ else none
                      | _ :: r6 =>
                          match readTime r6 with
                          | none => none
                          | some (h, mi, s, us, r7) =>
                              let build : Option Int → Option PyDateTime := fun tz =>
                                if validDate y mo d && decide (h ≤ 23) && decide (mi ≤ 59) &&
                                    decide (s ≤ 59) then
                                  some ⟨y, mo, d, h, mi, s, us, tz⟩
                                else none
                              match r7 with
                              | [] => build none
                              | '+' :: r8 =>
                                  match readTzTail 1 r8 with
                                  | some off => build (some off)
                                  | none => none
                              | '-' :: r8 =>
                                  match readTzTail (-1) r8 with
                                  | some off => build (some off)
                                  | none => none
                              | _ => none
              | _ => none
      | _ => none

/-- String-level entry point of the `fromisoformat` model. -/
def pyFromIso (s : String) : Option PyDateTime := pyFromIsoList s.toList

/-- Model of Python `str.replace("Z", "+00:00")` (replaces every
occurrence). -/
def replaceAllZ : List Char → List Char
  | [] => []
  | 'Z' :: t => '+' :: '0' :: '0' :: ':' :: '0' :: '0' :: replaceAllZ t
  | c :: t => c :: replaceAllZ t

/-- String-level wrapper for `replaceAllZ`. -/
def pyReplaceZ (s : String) : String := String.mk (replaceAllZ s.toList)

/-- Zero-padded two-digit rendering. -/
def pad2 (n : Nat) : String := if n < 10 then "0" ++ toString n else toString n

/-- Zero-padded four-digit rendering (years 1..9999). -/
def pad4 (n : Int) : String :=
  if n < 10 then "000" ++ toString n
  else if n < 100 then "00" ++ toString n
  else if n < 1000 then "0" ++ toString n
  else toString n

/-- Zero-padded six-digit rendering (microseconds). -/
def pad6 (n : Nat) : String :=
  if n < 10 then "00000" ++ toString n
  else if n < 100 then "0000" ++ toString n
  else if n < 1000 then "000" ++ toString n
  else if n < 10000 then "00" ++ toString n
  else if n < 100000 then "0" ++ toString n
  else toString n

/-- Rendering of a fixed UTC offset as `±HH:MM`. -/
def tzStr (off : Int) : String :=
  (if off < 0 then "-" else "+") ++ pad2 (off.natAbs / 60) ++ ":" ++ pad2 (off.natAbs % 60)

/-- Model of Python `datetime.isoformat()` for aware or naive values. -/
def pyIsoformat (d : PyDateTime) : String :=
  pad4 d.year ++ "-" ++ pad2 d.month ++ "-" ++ pad2 d.day ++ "T" ++ pad2 d.hour ++ ":" ++
    pad2 d.minute ++ ":" ++ pad2 d.second ++
    (if d.micro ≠ 0 then "." ++ pad6 d.micro else "") ++
    (match d.tz with
     | some off => tzStr off
     | none => "")

/-! ## Parsed-document model and JSON values -/

/-- Model of a parsed JSON value as produced by `json.loads` (numbers
restricted to integers; the linked-data payloads the program reads carry
strings in the relevant fields). -/
inductive JVal where
  | null
  | bool (b : Bool)
  | num (n : Int)
  | str (s : String)
  | arr (xs : List JVal)
  | obj (fields : List (String × JVal))

/-- Python truthiness of a JSON value. -/
def jTruthy : JVal → Bool
  | .null => false
  | .bool b => b
  | .num n => n != 0
  | .str s => s != ""
  | .arr xs => !xs.isEmpty
  | .obj fs => !fs.isEmpty

/-- Model of `dict.get`: `json.loads` keeps the last binding of a duplicated
key, so lookup returns the last matching entry. -/
def jlookup (fs : List (String × JVal)) (k : String) : Option JVal :=
  match fs.reverse.find? (fun p => p.1 == k) with
  | some p => some p.2
  | none => none

/-- Model of Python `str()` applied to a parsed JSON value.  For a list or a
dict only the first character of the rendering is kept: every consumer in
the program immediately feeds the result to `fromisoformat`, which rejects
any string starting with a bracket or a brace exactly as it rejects the
full rendering. -/
def pyStrJ : JVal → String
  | .str s => s
  | .num n => toString n
  | .bool b => if b then "True" else "False"
  | .null => "None"
  | .arr _ => "["
  | .obj _ => "\x7b"

/-- Model of a `<meta>` element: its `property`, `name` and `content`
attributes. -/
structure MetaTag where
  property : Option String
  name : Option String
  content : Option String

/-- Model of the first `<time>` element: its `datetime` attribute and its
stripped visible text (`get_text(" ", strip=True)`; the truthiness test
`get_text(strip=True)` is nonempty exactly when this is). -/
structure TimeTagM where
  datetimeAttr : Option String
  text : String

/-- Model of a `<p>` element inside the chosen container: its joined
stripped text and whether it sits inside an `aside`, `figcaption`, `nav`
or `footer` ancestor. -/
structure Para where
  text : String
  excluded : Bool

/-- Model of a parsed article document (`BeautifulSoup` output), carrying
exactly the features the extractors consult, in document order.  Each
`scripts` entry is the `json.loads` result of one `ld+json` block
(`none` models a parse failure). -/
structure Soup where
  metas : List MetaTag
  scripts : List (Option JVal)
  timeTag : Option TimeTagM
  fullText : String
  h1Text : Option String
  paras : List Para

/-- Model of Python `a or b` for optional values whose truthiness is
non-`None`-ness (datetime objects and bs4 tags are always truthy). -/
def opOr {α : Type} (a b : Option α) : Option α :=
  match a with
  | some x => some x
  | none => b

/-- Model of Python `a or b` where `a` is an optional string (empty string
is falsy). -/
def pyOrStr (a : Option String) (b : String) : String :=
  match a with
  | some s => if s == "" then b else s
  | none => b

/-! ## Field extractors (publish datetime) -/

/-- Embedding of `get_meta_datetime` (app.py:85-92): find a meta tag by
`property`, else by `name`; parse its nonempty `content` as ISO-8601 after
replacing `Z`, swallowing parse errors. -/
def get_meta_datetime (soup : Soup) (prop : String) : Option PyDateTime :=
  match opOr (soup.metas.find? (fun t => t.property == some prop))
      (soup.metas.find? (fun t => t.name == some prop)) with
  | none => none
  | some t =>
      match t.content with
      | some c => if c == "" then none else pyFromIso (pyReplaceZ c)
      | none => none

/-- Python whitespace on the ASCII range. -/
def isPyWS (c : Char) : Bool :=
  c == ' ' || c == '\t' || c == '\n' || c == '\r' || c == '\x0b' || c == '\x0c'

/-- Does the needle occur as a prefix of the haystack? -/
def startsWithChars : List Char → List Char → Bool
  | [], _ => true
  | _ :: _, [] => false
  | a :: as, b :: bs => a == b && startsWithChars as bs

/-- English month names with their numbers, in the order of the regex
alternation of `parse_human_datetime`. -/
def monthNames : List (String × Nat) :=
  [("January", 1), ("February", 2), ("March", 3), ("April", 4), ("May", 5), ("June", 6),
   ("July", 7), ("August", 8), ("September", 9), ("October", 10), ("November", 11),
   ("December", 12)]

/-- Try each month name as a prefix of the text (no month name is a prefix
of another, so alternation order is immaterial). -/
def matchMonthAux : List (String × Nat) → List Char → Option (Nat × List Char)
  | [], _ => none
  | (nm, v) :: rest, l =>
      if startsWithChars nm.toList l then some (v, l.drop nm.toList.length)
      else matchMonthAux rest l

/-- Skip one-or-more whitespace characters (maximal munch). -/
def skipWS1 (l : List Char) : Option (List Char) :=
  match l with
  | c :: rest => if isPyWS c then some (rest.dropWhile isPyWS) else none
  | [] => none

/-- Match one or two digits directly followed by a comma, with the regex
backtracking behaviour (two digits tried first). -/
def matchDayComma : List Char → Option (Nat × List Char)
  | a :: rest =>
      match digitVal a with
      | none => none
      | some x =>
          match rest with
          | b :: rest2 =>
              match digitVal b with
              | some y =>
                  match rest2 with
                  | ',' :: rest3 => some (10 * x + y, rest3)
                  | _ => none
              | none =>
                  match rest with
                  | ',' :: rest3 => some (x, rest3)
                  | _ => none
          | [] => none
  | [] => none

/-- Match the full human-date pattern (month name, whitespace, one or two
digits, comma, whitespace, four digits) at the head of the text, returning
month, day and year. -/
def matchHumanAt (l : List Char) : Option (Nat × Nat × Nat) :=
  match matchMonthAux monthNames l with
  | none => none
  | some (m, r1) =>
      match skipWS1 r1 with
      | none => none
      | some r2 =>
          match matchDayComma r2 with
          | none => none
          | some (d, r3) =>
              match skipWS1 r3 with
              | none => none
              | some r4 =>
                  match read4 r4 with
                  | some (y, _) => some (m, d, y)
                  | none => none

/-- Leftmost match of the human-date pattern (`re.search`). -/
def searchHuman : List Char → Option (Nat × Nat × Nat)
  | [] => none
  | l@(_ :: t) =>
      match matchHumanAt l with
      | some r => some r
      | none => searchHuman t

/-- Embedding of `parse_human_datetime` (app.py:94-102): search the text for
a month-name date, parse it with `strptime` (which validates the calendar
day; failure is swallowed) and stamp it as midnight UTC. -/
def parse_human_datetime (text : String) : Option PyDateTime :=
  match searchHuman text.toList with
  | none => none
  | some (m, d, y) =>
      if decide (1 ≤ y) && decide (1 ≤ d) && decide (d ≤ daysInMonth y m) then
        some ⟨y, m, d, 0, 0, 0, 0, some 0⟩
      else none

/-- Candidate list of one linked-data block: the elements of a JSON array,
or the single value itself. -/
def candidatesOf : JVal → List JVal
  | .arr xs => xs
  | v => [v]

/-- Recognised linked-data article types. -/
def articleTypes : List String := ["NewsArticle", "Article", "BlogPosting"]

/-- Result of evaluating the `@type` set-membership test: membership,
non-membership, or a `TypeError` (an unhashable list or dict value). -/
inductive TypeTag where
  | yes
  | no
  | raise

/-- Evaluate the `@type` membership test of one candidate dict. -/
def typeTagOf (fs : List (String × JVal)) : TypeTag :=
  match jlookup fs "@type" with
  | none => .no
  | some (.str t) => if articleTypes.contains t then .yes else .no
  | some (.arr _) => .raise
  | some (.obj _) => .raise
  | some _ => .no

/-- Model of `a or b` on looked-up JSON values with Python truthiness. -/
def pyOrJ (a b : Option JVal) : Option JVal :=
  match a with
  | some v => if jTruthy v then some v else b
  | none => b

/-- Keep a looked-up value only when truthy. -/
def truthyJ : Option JVal → Option JVal
  | some v => if jTruthy v then some v else none
  | none => none

/-- Inner candidate loop of `get_ldjson_datetime` (app.py:108-113): the
first article-typed dict with a truthy `datePublished`/`dateCreated`
triggers a `return` of the parsed value; a parse failure or an unhashable
`@type` raises, which the per-script `except` turns into "this script
yielded nothing". -/
def candLoopDT : List JVal → Option PyDateTime
  | [] => none
  | .obj fs :: rest =>
      (match typeTagOf fs with
       | .raise => none
       | .no => candLoopDT rest
       | .yes =>
           match truthyJ (pyOrJ (jlookup fs "datePublished") (jlookup fs "dateCreated")) with
           | some dp => pyFromIso (pyReplaceZ (pyStrJ dp))
           | none => candLoopDT rest)
  | _ :: rest => candLoopDT rest

/-- Datetime contribution of one `ld+json` script (`none` continues the
outer loop: json parse failure, no matching candidate, or a swallowed
exception). -/
def scriptDatetime (script : Option JVal) : Option PyDateTime :=
  match script with
  | none => none
  | some data => candLoopDT (candidatesOf data)

/-- First `some` in a list of optional results (a for-loop with `return`). -/
def firstSome {α : Type} : List (Option α) → Option α
  | [] => none
  | none :: t => firstSome t
  | some v :: _ => some v

/-- Embedding of `get_ldjson_datetime` (app.py:104-116). -/
def get_ldjson_datetime (soup : Soup) : Option PyDateTime :=
  firstSome (soup.scripts.map scriptDatetime)

/-- Embedding of `get_time_tag_datetime` (app.py:118-127): the first
`<time>` element's machine-readable attribute, else its visible text
parsed as a human date. -/
def get_time_tag_datetime (soup : Soup) : Option PyDateTime :=
  match soup.timeTag with
  | none => none
  | some t =>
      match (match t.datetimeAttr with
             | some a => if a == "" then none else pyFromIso (pyReplaceZ a)
             | none => none) with
      | some d => some d
      | none => if t.text == "" then none else parse_human_datetime t.text

/-- Embedding of `get_text_datetime_fallback` (app.py:129-131): the whole
visible page text scanned for a human date. -/
def get_text_datetime_fallback (soup : Soup) : Option PyDateTime :=
  parse_human_datetime soup.fullText

/-! ## Field extractors (body) and the article parser -/

/-- Inner candidate loop of `get_ldjson_article_body` (app.py:136-142). -/
def candLoopBody : List JVal → Option String
  | [] => none
  | .obj fs :: rest =>
      (match typeTagOf fs with
       | .raise => none
       | .no => candLoopBody rest
       | .yes =>
           match truthyJ (jlookup fs "articleBody") with
           | some b => some (pyStrJ b)
           | none => candLoopBody rest)
  | _ :: rest => candLoopBody rest

/-- Body contribution of one `ld+json` script. -/
def scriptBody (script : Option JVal) : Option String :=
  match script with
  | none => none
  | some data => candLoopBody (candidatesOf data)

/-- Embedding of `get_ldjson_article_body` (app.py:133-145). -/
def get_ldjson_article_body (soup : Soup) : Option String :=
  firstSome (soup.scripts.map scriptBody)

/-- Embedding of `extract_paragraphs` (app.py:147-156): paragraphs of the
chosen container, skipping excluded regions and texts shorter than two
characters, joined by blank lines. -/
def extract_paragraphs (soup : Soup) : String :=
  String.intercalate "\n\n"
    ((soup.paras.filter (fun p => !p.excluded && decide (2 ≤ p.text.length))).map
      (fun p => p.text))

/-- Model of Python `str.strip()` (ASCII whitespace). -/
def pyStrip (s : String) : String :=
  String.mk (((s.toList.dropWhile isPyWS).reverse.dropWhile isPyWS).reverse)

/-- The four-source publish-datetime cascade of `parse_article`
(app.py:165-170), first success wins via Python `or`. -/
def extract_published (soup : Soup) : Option PyDateTime :=
  opOr (get_meta_datetime soup "article:published_time")
    (opOr (get_ldjson_datetime soup)
      (opOr (get_time_tag_datetime soup) (get_text_datetime_fallback soup)))

/-- The record assembled for one article (app.py:174-180; timestamps are
serialised ISO strings, exactly as the source builds the dict). -/
structure ArticleRecord where
  url : String
  title : String
  published_utc : Option String
  published_kst : Option String
  body : String
deriving DecidableEq, Repr

/-- Embedding of `parse_article` (app.py:158-180) applied to an already
fetched and parsed page. -/
def parse_article (url : String) (soup : Soup) : ArticleRecord :=
  let title : String :=
    match soup.h1Text with
    | some t => t
    | none => ""
  let published := extract_published soup
  let bodyText := pyOrStr (get_ldjson_article_body soup) (extract_paragraphs soup)
  { url := url
    title := title
    published_utc := published.map (fun d => pyIsoformat (astimezone d 0))
    published_kst := published.map (fun d => pyIsoformat (astimezone d KST))
    body := pyStrip bodyText }

/-! ## Day filter -/

/-- Embedding of `is_today_kst` (app.py:182-185). -/
def is_today_kst (dt : Option PyDateTime) (today : PyDateTime) : Bool :=
  match dt with
  | none => false
  | some d => decide (dateTriple (astimezone d KST) = dateTriple today)

/-- The per-article filter applied by `crawl_today` (app.py:193-194): a
falsy `published_kst` is skipped, otherwise the reparsed timestamp is
compared to today; a reparse failure is swallowed by the per-article
`except` and the article is skipped. -/
def keepArticle (art : ArticleRecord) (today : PyDateTime) : Bool :=
  match art.published_kst with
  | none => false
  | some s =>
      if s == "" then false
      else
        match pyFromIso s with
        | some d => is_today_kst (some d) today
        | none => false

/-! ## URL handling and the link collector -/

/-- Characters allowed in a URL scheme after the initial letter. -/
def isSchemeChar (c : Char) : Bool := c.isAlpha || c.isDigit || c == '+' || c == '-' || c == '.'

/-- Split a leading scheme (letter followed by scheme characters up to a
colon), as CPython `urllib.parse` recognises one. -/
def schemeSplitAux (acc : List Char) : List Char → Option (List Char × List Char)
  | [] => none
  | ':' :: r => some (acc.reverse, r)
  | c :: r => if isSchemeChar c then schemeSplitAux (c :: acc) r else none

/-- Scheme and remainder of a URL, when a scheme is present. -/
def schemeSplit (l : List Char) : Option (List Char × List Char) :=
  match l with
  | c :: r => if c.isAlpha then schemeSplitAux [c] r else none
  | [] => none

/-- Take characters up to (excluding) the first stop character. -/
def takeUntil (stops : List Char) : List Char → List Char × List Char
  | [] => ([], [])
  | c :: r =>
      if stops.contains c then ([], c :: r)
      else
        let p := takeUntil stops r
        (c :: p.1, p.2)

/-- Model of `urllib.parse.urlparse` restricted to the two components the
program reads: `netloc` (present only after a double slash) and `path`
(before any query or fragment). -/
def urlparseNetlocPath (s : String) : String × String :=
  let rest0 :=
    match schemeSplit s.toList with
    | some p => p.2
    | none => s.toList
  let np :=
    match rest0 with
    | '/' :: '/' :: r => takeUntil ['/', '?', '#'] r
    | _ => ([], rest0)
  let beforeFrag := (takeUntil ['#'] np.2).1
  let path := (takeUntil ['?'] beforeFrag).1
  (String.mk np.1, String.mk path)

/-- Does the needle occur somewhere in the haystack (Python `in` on
strings)? -/
def infixAux (needle : List Char) : List Char → Bool
  | [] => needle.isEmpty
  | c :: t => startsWithChars needle (c :: t) || infixAux needle t

/-- String-level substring test. -/
def substrContains (needle hay : String) : Bool := infixAux needle.toList hay.toList

/-- Does the year-month pattern (slash, `2`, `0`, two digits, slash, two
digits, slash) match at the head of the character list? -/
def ymAt : List Char → Bool
  | '/' :: '2' :: '0' :: a :: b :: '/' :: c :: d :: '/' :: _ =>
      a.isDigit && b.isDigit && c.isDigit && d.isDigit
  | _ => false

/-- Does the year-month pattern match anywhere (`re.search`)? -/
def hasYM : List Char → Bool
  | [] => false
  | l@(_ :: t) => ymAt l || hasYM t

/-- Embedding of `is_article_url` (app.py:49-56): the netloc contains
`techcrunch.com` or is empty, and the path matches the year-month
pattern. -/
def is_article_url (href : String) : Bool :=
  let np := urlparseNetlocPath href
  (substrContains "techcrunch.com" np.1 || np.1 == "") && hasYM np.2.toList

/-- Model of `urllib.parse.urljoin` on the cases the collector meets:
absolute URLs pass through, scheme-relative URLs take the base scheme,
root-relative paths take scheme and netloc, and other relative paths are
resolved against the base path's directory (dot segments not modelled). -/
def pyUrljoin (base url : String) : String :=
  let ul := url.toList
  if url == "" then base
  else
    match schemeSplit ul with
    | some _ => url
    | none =>
        let bl := base.toList
        let bscheme :=
          match schemeSplit bl with
          | some p => p.1
          | none => []
        let brest :=
          match schemeSplit bl with
          | some p => p.2
          | none => bl
        let np :=
          match brest with
          | '/' :: '/' :: r => takeUntil ['/', '?', '#'] r
          | _ => ([], brest)
        let bpath := (takeUntil ['?'] (takeUntil ['#'] np.2).1).1
        match ul with
        | '/' :: '/' :: _ => String.mk (bscheme ++ [':'] ++ ul)
        | '/' :: _ => String.mk (bscheme ++ [':', '/', '/'] ++ np.1 ++ ul)
        | _ =>
            let dir := (bpath.reverse.dropWhile (fun c => c != '/')).reverse
            String.mk (bscheme ++ [':', '/', '/'] ++ np.1 ++ dir ++ ul)

/-- Embedding of `normalize_link` (app.py:58-59). -/
def normalize_link (href base : String) : String := pyUrljoin base href

/-- Model of a fetched category page: its URL, the href of the first anchor
inside each `h3` (in document order, `none` when a heading has no anchor),
and the hrefs of all anchors (in document order). -/
structure CategoryPage where
  url : String
  h3Anchors : List (Option String)
  allAnchors : List String

/-- Model of `set.add` observed through membership and size: the element
list of the growing set, kept without duplicates. -/
def pyAdd (acc : List String) (x : String) : List String :=
  if acc.contains x then acc else acc ++ [x]

/-- First collection pass of `get_article_links` (app.py:67-72): anchors
nested in `h3` headings; stops once the set reaches the limit. -/
def pass1 (base : String) (limit : Nat) : List (Option String) → List String → List String
  | [], acc => acc
  | none :: t, acc => pass1 base limit t acc
  | some h :: t, acc =>
      if is_article_url h then
        let acc2 := pyAdd acc (normalize_link h base)
        if limit ≤ acc2.length then acc2 else pass1 base limit t acc2
      else pass1 base limit t acc

/-- Second collection pass (app.py:75-81): every anchor on the page, with
the stop test after each one. -/
def pass2 (base : String) (limit : Nat) : List String → List String → List String
  | [], acc => acc
  | h :: t, acc =>
      let acc2 := if is_article_url h then pyAdd acc (normalize_link h base) else acc
      if limit ≤ acc2.length then acc2 else pass2 base limit t acc2

/-- Elements of the `links` set after both passes of `get_article_links`. -/
def collectLinks (page : CategoryPage) (limit : Nat) : List String :=
  let s1 := pass1 page.url limit page.h3Anchors []
  if s1.length < limit then pass2 page.url limit page.allAnchors s1 else s1

/-- Embedding of `get_article_links` (app.py:61-83) applied to an already
fetched page.  `list(links)` serialises a Python `set` in an unspecified,
hash-seed-dependent order; the serialisation is modelled by the parameter
`enum`, constrained in the theorems to produce a permutation of the set's
elements. -/
def get_article_links (enum : List String → List String) (page : CategoryPage)
    (limit : Nat) : List String :=
  (enum (collectLinks page limit)).take limit

/-! ## Feed variant (TechCrunchScraper) -/

/-- Model of a feedparser entry: title, link, and the two optional
`struct_time` attributes (year, month, day, hour, minute, second, UTC). -/
structure FeedEntry where
  title : String
  link : String
  published_parsed : Option (Int × Nat × Nat × Nat × Nat × Nat)
  updated_parsed : Option (Int × Nat × Nat × Nat × Nat × Nat)

/-- A `struct_time` prefix as the aware UTC datetime the source builds. -/
def structTimeToDT (t : Int × Nat × Nat × Nat × Nat × Nat) : PyDateTime :=
  ⟨t.1, t.2.1, t.2.2.1, t.2.2.2.1, t.2.2.2.2.1, t.2.2.2.2.2, 0, some 0⟩

/-- Embedding of `parse_date_to_kst` (TechCrunchScraper lines 50-66). -/
def parse_date_to_kst (e : FeedEntry) : Option PyDateTime :=
  match e.published_parsed with
  | some t => some (astimezone (structTimeToDT t) KST)
  | none =>
      match e.updated_parsed with
      | some t => some (astimezone (structTimeToDT t) KST)
      | none => none

/-- One item of the feed handler's result list (before the body deepdive
adds `content`). -/
structure FeedItem where
  title : String
  url : String
  published_at_kst : Option String
deriving DecidableEq, Repr

/-- The item built for an entry on the fallback path (TechCrunchScraper
lines 224-240). -/
def feedItemOf (e : FeedEntry) : FeedItem :=
  ⟨e.title, e.link, (parse_date_to_kst e).map pyIsoformat⟩

/-- The items whose KST date equals the target date (TechCrunchScraper
lines 194-216). -/
def feedMatched (entries : List FeedEntry) (target : Int × Nat × Nat) : List FeedItem :=
  entries.filterMap (fun e =>
    match parse_date_to_kst e with
    | none => none
    | some k =>
        if dateTriple k = target then some ⟨e.title, e.link, some (pyIsoformat k)⟩ else none)

/-- Embedding of the item-selection logic of the feed handler
(TechCrunchScraper lines 192-248): date-matched items, else the first `n`
entries regardless of date; the deepdive loop then caps at `n`. -/
def feedMainItems (entries : List FeedEntry) (target : Int × Nat × Nat) (n : Nat) :
    List FeedItem :=
  let items := feedMatched entries target
  let items2 := if items.isEmpty then (entries.take n).map feedItemOf else items
  items2.take n

/-! ## Query-parameter coercion -/

/-- Strip leading and trailing ASCII whitespace from a character list. -/
def stripWSChars (l : List Char) : List Char :=
  ((l.dropWhile isPyWS).reverse.dropWhile isPyWS).reverse

/-- Parse a digit run that may contain single underscores between digits
(as Python numeric literals allow), continuing an already-read value. -/
def digitsUSAux (acc : Nat) : List Char → Option Nat
  | [] => some acc
  | '_' :: c :: r =>
      match digitVal c with
      | some v => digitsUSAux (10 * acc + v) r
      | none => none
  | c :: r =>
      match digitVal c with
      | some v => digitsUSAux (10 * acc + v) r
      | none => none

/-- Parse a nonempty digit run with optional single underscores. -/
def digitsUS : List Char → Option Nat
  | c :: r =>
      match digitVal c with
      | some v => digitsUSAux v r
      | none => none
  | [] => none

/-- Model of Python `int(str)`: optional surrounding whitespace, optional
sign, a digit run (ASCII digits modelled). -/
def pyIntParse (s : String) : Option Int :=
  match stripWSChars s.toList with
  | '+' :: r => (digitsUS r).map (fun n => (n : Int))
  | '-' :: r => (digitsUS r).map (fun n => -(n : Int))
  | l => (digitsUS l).map (fun n => (n : Int))

/-- Embedding of the `_to_int` helper of the crawl handler
(app.py:205-210): parse failures fall back to the default, successes are
clamped. -/
def toIntParam (v : Option String) (default min_v max_v : Int) : Int :=
  match v with
  | none => max min_v (min max_v default)
  | some s =>
      match pyIntParse s with
      | some x => max min_v (min max_v x)
      | none => default

/-- Model of a Python float value: a finite rational (doubles are exact for
every comparison the program performs), signed infinity, or NaN. -/
inductive PyFloat where
  | fin (q : ℚ)
  | inf
  | ninf
  | nan
deriving DecidableEq

/-- IEEE comparison: every comparison with NaN is false. -/
def pyLtF : PyFloat → PyFloat → Bool
  | .fin a, .fin b => decide (a < b)
  | .fin _, .inf => true
  | .ninf, .fin _ => true
  | .ninf, .inf => true
  | _, _ => false

/-- Python `min(a, b)`: `b` when `b < a`, else `a`. -/
def pyMinF (a b : PyFloat) : PyFloat := if pyLtF b a then b else a

/-- Python `max(a, b)`: `b` when `a < b`, else `a`. -/
def pyMaxF (a b : PyFloat) : PyFloat := if pyLtF a b then b else a

/-- Parse a digit run with underscores, also returning the digit count and
the rest of the input (greedy). -/
def digitsCntAux (acc cnt : Nat) : List Char → Option (Nat × Nat × List Char)
  | [] => some (acc, cnt, [])
  | '_' :: c :: r =>
      match digitVal c with
      | some v => digitsCntAux (10 * acc + v) (cnt + 1) r
      | none => none
  | '_' :: [] => none
  | c :: r =>
      match digitVal c with
      | some v => digitsCntAux (10 * acc + v) (cnt + 1) r
      | none => some (acc, cnt, c :: r)

/-- Parse a nonempty digit run with underscores, returning value, count and
rest. -/
def digitsCnt : List Char → Option (Nat × Nat × List Char)
  | c :: r =>
      match digitVal c with
      | some v => digitsCntAux v 1 r
      | none => none
  | [] => none

/-- Mantissa of a float literal: integer part with optional fraction, or a
leading-dot fraction. -/
def floatBody (l : List Char) : Option (ℚ × List Char) :=
  match l with
  | '.' :: r =>
      match digitsCnt r with
      | some (v, cnt, rest) => some ((v : ℚ) / (10 : ℚ) ^ cnt, rest)
      | none => none
  | _ =>
      match digitsCnt l with
      | none => none
      | some (v, _, rest) =>
          match rest with
          | '.' :: r2 =>
              match digitsCnt r2 with
              | some (v2, c2, rest2) => some ((v : ℚ) + (v2 : ℚ) / (10 : ℚ) ^ c2, rest2)
              | none => some ((v : ℚ), r2)
          | _ => some ((v : ℚ), rest)

/-- Optional exponent part of a float literal. -/
def expPart (q : ℚ) (l : List Char) : Option (ℚ × List Char) :=
  match l with
  | c :: r =>
      if c == 'e' || c == 'E' then
        match r with
        | '+' :: r2 =>
            match digitsCnt r2 with
            | some (e, _, rest) => some (q * (10 : ℚ) ^ (e : Int), rest)
            | none => none
        | '-' :: r2 =>
            match digitsCnt r2 with
            | some (e, _, rest) => some (q * (10 : ℚ) ^ (-(e : Int)), rest)
            | none => none
        | _ =>
            match digitsCnt r with
            | some (e, _, rest) => some (q * (10 : ℚ) ^ (e : Int), rest)
            | none => none
      else some (q, c :: r)
  | [] => some (q, [])

/-- Case-insensitive literal match, returning the rest of the input. -/
def matchCI : List Char → List Char → Option (List Char)
  | [], l => some l
  | p :: ps, c :: cs => if c.toLower == p then matchCI ps cs else none
  | _ :: _, [] => none

/-- Model of Python `float(str)`: optional whitespace and sign, then a
numeric literal with optional exponent, or the named specials
`inf`/`infinity`/`nan` (case-insensitive). -/
def pyFloatParse (s : String) : Option PyFloat :=
  match stripWSChars s.toList with
  | [] => none
  | l0 =>
      let sp : Int × List Char :=
        match l0 with
        | '+' :: r => (1, r)
        | '-' :: r => (-1, r)
        | _ => (1, l0)
      match matchCI "infinity".toList sp.2 with
      | some [] => some (if sp.1 = 1 then .inf else .ninf)
      | _ =>
          match matchCI "inf".toList sp.2 with
          | some [] => some (if sp.1 = 1 then .inf else .ninf)
          | _ =>
              match matchCI "nan".toList sp.2 with
              | some [] => some .nan
              | _ =>
                  match floatBody sp.2 with
                  | none => none
                  | some (q, r1) =>
                      match expPart q r1 with
                      | some (q2, []) => some (.fin ((sp.1 : ℚ) * q2))
                      | _ => none

/-- Embedding of the `_to_float` helper of the crawl handler
(app.py:212-217). -/
def toFloatParam (v : Option String) (default min_v max_v : PyFloat) : PyFloat :=
  match v with
  | none => pyMaxF min_v (pyMinF max_v default)
  | some s =>
      match pyFloatParse s with
      | some x => pyMaxF min_v (pyMinF max_v x)
      | none => default

/-- Default category URL of the crawl handler. -/
def DEFAULT_CATEGORY_URL : String := "https://techcrunch.com/category/artificial-intelligence/"

/-- Query-parameter resolution of the crawl handler (app.py:219-229):
`(only_today, category_url, limit, sleep_sec)`.  Total by construction —
no parameter value can make it fail. -/
def tc_crawl_params (today url limit sleep : Option String) : Bool × String × Int × PyFloat :=
  (pyStrip (pyOrStr today "1") == "1",
   pyStrip (pyOrStr url DEFAULT_CATEGORY_URL),
   toIntParam limit 40 1 200,
   toFloatParam sleep (.fin (7 / 10)) (.fin 0) (.fin 5))

/-- Two-digit-first match of a `strptime` numeric field whose regex accepts
two-digit values up to `maxV` and single digits 1..9, with regex
backtracking. -/
def matchNum2 (maxV : Nat) : List Char → Option (Nat × List Char)
  | a :: b :: r =>
      match digitVal a, digitVal b with
      | some x, some y =>
          if 1 ≤ 10 * x + y ∧ 10 * x + y ≤ maxV then some (10 * x + y, r)
          else if 1 ≤ x then some (x, b :: r) else none
      | some x, _ => if 1 ≤ x then some (x, b :: r) else none
      | none, _ => none
  | a :: [] =>
      match digitVal a with
      | some x => if 1 ≤ x then some (x, []) else none
      | none => none
  | [] => none

/-- Model of `datetime.strptime` with the year-month-day format: four-digit
year, one-or-two-digit month and day, whole string consumed,
calendar-valid. -/
def strptimeYMD (s : String) : Option (Int × Nat × Nat) :=
  match read4 s.toList with
  | none => none
  | some (y, r1) =>
      match r1 with
      | '-' :: r2 =>
          match matchNum2 12 r2 with
          | none => none
          | some (m, r3) =>
              match r3 with
              | '-' :: r4 =>
                  match matchNum2 31 r4 with
                  | some (d, []) =>
                      if decide (1 ≤ y) && decide (d ≤ daysInMonth y m) then
                        some ((y : Int), m, d)
                      else none
                  | _ => none
              | _ => none
      | _ => none

/-- The target date chosen by the feed handler (TechCrunchScraper lines
162-170): the `date` parameter parsed with `strptime`, whose failure
raises out of the handler body, else today's KST date. -/
def feedTarget (dateParam : Option String) (nowDate : Int × Nat × Nat) :
    Except String (Int × Nat × Nat) :=
  match dateParam with
  | none => .ok nowDate
  | some s =>
      if s == "" then .ok nowDate
      else
        match strptimeYMD s with
        | some d => .ok d
        | none => .error "time data does not match format"

/-- The `n` parameter of the feed handler (TechCrunchScraper lines
176-184): parse failures fall back to 10, then clamp to 1..30. -/
def feedN (nParam : Option String) : Int :=
  let raw : Int :=
    match nParam with
    | none => 10
    | some s =>
        match pyIntParse s with
        | some x => x
        | none => 10
  max 1 (min raw 30)

/-- The feed handler's outcome on its inputs: the result items, or the
error that escapes to the outer handler. -/
def feedMain (dateParam nParam : Option String) (nowDate : Int × Nat × Nat)
    (entries : List FeedEntry) : Except String (List FeedItem) :=
  match feedTarget dateParam nowDate with
  | .error e => .error e
  | .ok target => .ok (feedMainItems entries target (feedN nParam).toNat)

/-- HTTP status produced by the feed handler's try/except (TechCrunchScraper
lines 294-316): 200 on success, 500 on an escaped error. -/
def feedStatus {α : Type} (r : Except String α) : Nat :=
  match r with
  | .ok _ => 200
  | .error _ => 500

/-! ## Concrete fixture documents and pages -/

/-- The instant denoted by `2025-09-10T08:00:00+00:00`. -/
def dtZ : PyDateTime := ⟨2025, 9, 10, 8, 0, 0, 0, some 0⟩

/-- The instant denoted by `2025-09-10T08:00:00+09:00`. -/
def dtK : PyDateTime := ⟨2025, 9, 10, 8, 0, 0, 0, some 540⟩

/-- A linked-data block declaring a `NewsArticle` with
`datePublished = 2025-09-10T08:00:00+09:00`. -/
def ldScript : Option JVal :=
  some (.obj [("@type", .str "NewsArticle"), ("datePublished", .str "2025-09-10T08:00:00+09:00")])

/-- A document carrying both the structured published-time meta tag (with a
`Z`-suffixed value) and the linked-data block. -/
def docMetaAndLd : Soup :=
  { metas := [⟨some "article:published_time", none, some "2025-09-10T08:00:00Z"⟩]
    scripts := [ldScript]
    timeTag := none
    fullText := "TechCrunch article body text"
    h1Text := some "Headline"
    paras := [] }

/-- The same document with the meta tag removed. -/
def docLdOnly : Soup :=
  { metas := []
    scripts := [ldScript]
    timeTag := none
    fullText := "TechCrunch article body text"
    h1Text := some "Headline"
    paras := [] }

/-- A document on which every datetime source fails: unparsable meta
content, one malformed JSON script, one script whose `datePublished` is
unparsable, an unparsable `time` attribute with dateless text, and
dateless page text. -/
def docAllBad : Soup :=
  { metas := [⟨some "article:published_time", none, some "not-a-date"⟩]
    scripts := [none, some (.obj [("@type", .str "NewsArticle"), ("datePublished", .str "garbage")])]
    timeTag := some ⟨some "also-bad", "no date in here"⟩
    fullText := "no dates appear in this text"
    h1Text := some "T"
    paras := [] }

/-- Like `docAllBad`, but the `time` element's visible text carries a
human-readable date, so the cascade recovers at the third source. -/
def docRecovering : Soup :=
  { metas := [⟨some "article:published_time", none, some "not-a-date"⟩]
    scripts := [none, some (.obj [("@type", .str "NewsArticle"), ("datePublished", .str "garbage")])]
    timeTag := some ⟨some "still-bad", "September 10, 2025"⟩
    fullText := "no dates appear in this text"
    h1Text := some "T"
    paras := [] }

/-- A document with no machine-readable date whose visible text contains a
natural-language date. -/
def docTextOnly : Soup :=
  { metas := []
    scripts := []
    timeTag := none
    fullText := "Posted on September 10, 2025 by staff"
    h1Text := some "T"
    paras := [] }

/-- A category page with two qualifying heading links, in document order. -/
def cexPage : CategoryPage :=
  { url := "https://techcrunch.com/category/artificial-intelligence/"
    h3Anchors := [some "https://techcrunch.com/2025/09/10/alpha/",
                  some "https://techcrunch.com/2025/09/11/beta/"]
    allAnchors := [] }

/-- A feed entry carrying no parsable timestamp at all. -/
def feedE1 : FeedEntry := ⟨"T1", "https://techcrunch.com/2025/09/10/a/", none, none⟩

/-- A KST wall-clock reading on 2025-09-10 (the `datetime.now(KST)` value
passed as the target day). -/
def kstNoon : PyDateTime := ⟨2025, 9, 10, 12, 0, 0, 0, some 540⟩

/-- Suffix test on strings (used to state that a host is not a subdomain of
the target site). -/
def endsWithStr (suf s : String) : Bool :=
  startsWithChars suf.toList.reverse s.toList.reverse

/-! ## Theorems -/

/-- Soundness of the range checker: a true `rangeOK` yields `doyOK` at
every index of the range. -/
theorem rangeOK_sound : ∀ lo n, rangeOK lo n = true → ∀ i, i < n → doyOK (lo + i) = true := by
  intro lo n
  induction n with
  | zero => intro _ i hi; omega
  | succ m ih =>
      intro h i hi
      simp only [rangeOK, Bool.and_eq_true] at h
      rcases Nat.lt_succ_iff_lt_or_eq.mp hi with h2 | h2
      · exact ih h.2 i h2
      · subst h2; exact h.1

/-- Adjacent verified ranges concatenate. -/
theorem rangeOK_join : ∀ m lo n, rangeOK (lo + n) m = true → rangeOK lo n = true →
    rangeOK lo (m + n) = true := by
  intro m
  induction m with
  | zero => intro lo n _ h2; simpa using h2
  | succ k ih =>
      intro lo n h1 h2
      have e : k + 1 + n = (k + n) + 1 := by omega
      rw [e]
      simp only [rangeOK, Bool.and_eq_true] at h1 ⊢
      constructor
      · have e2 : lo + (k + n) = lo + n + k := by omega
        rw [e2]; exact h1.1
      · exact ih lo n h1.2 h2

set_option maxRecDepth 100000 in
theorem calChunk0 : rangeOK 0 3000 = true := by decide

set_option maxRecDepth 100000 in
theorem calChunk1 : rangeOK 3000 3000 = true := by decide

set_option maxRecDepth 100000 in
theorem calChunk2 : rangeOK 6000 3000 = true := by decide

set_option maxRecDepth 100000 in
theorem calChunk3 : rangeOK 9000 3000 = true := by decide

set_option maxRecDepth 100000 in
theorem calChunk4 : rangeOK 12000 3000 = true := by decide

set_option maxRecDepth 100000 in
theorem calChunk5 : rangeOK 15000 3000 = true := by decide

set_option maxRecDepth 100000 in
theorem calChunk6 : rangeOK 18000 3000 = true := by decide

set_option maxRecDepth 100000 in
theorem calChunk7 : rangeOK 21000 3000 = true := by decide

set_option maxRecDepth 100000 in
theorem calChunk8 : rangeOK 24000 3000 = true := by decide

set_option maxRecDepth 100000 in
theorem calChunk9 : rangeOK 27000 3000 = true := by decide

set_option maxRecDepth 100000 in
theorem calChunk10 : rangeOK 30000 3000 = true := by decide

set_option maxRecDepth 100000 in
theorem calChunk11 : rangeOK 33000 3000 = true := by decide

set_option maxRecDepth 100000 in
theorem calChunk12 : rangeOK 36000 3000 = true := by decide

set_option maxRecDepth 100000 in
theorem calChunk13 : rangeOK 39000 3000 = true := by decide

set_option maxRecDepth 100000 in
theorem calChunk14 : rangeOK 42000 3000 = true := by decide

set_option maxRecDepth 100000 in
theorem calChunk15 : rangeOK 45000 3000 = true := by decide

set_option maxRecDepth 100000 in
theorem calChunk16 : rangeOK 48000 3000 = true := by decide

set_option maxRecDepth 100000 in
theorem calChunk17 : rangeOK 51000 3000 = true := by decide

set_option maxRecDepth 100000 in
theorem calChunk18 : rangeOK 54000 3000 = true := by decide

set_option maxRecDepth 100000 in
theorem calChunk19 : rangeOK 57000 3000 = true := by decide

set_option maxRecDepth 100000 in
theorem calChunk20 : rangeOK 60000 3000 = true := by decide

set_option maxRecDepth 100000 in
theorem calChunk21 : rangeOK 63000 3000 = true := by decide

set_option maxRecDepth 100000 in
theorem calChunk22 : rangeOK 66000 3000 = true := by decide

set_option maxRecDepth 100000 in
theorem calChunk23 : rangeOK 69000 3000 = true := by decide

set_option maxRecDepth 100000 in
theorem calChunk24 : rangeOK 72000 3000 = true := by decide

set_option maxRecDepth 100000 in
theorem calChunk25 : rangeOK 75000 3000 = true := by decide

set_option maxRecDepth 100000 in
theorem calChunk26 : rangeOK 78000 3000 = true := by decide

set_option maxRecDepth 100000 in
theorem calChunk27 : rangeOK 81000 3000 = true := by decide

set_option maxRecDepth 100000 in
theorem calChunk28 : rangeOK 84000 3000 = true := by decide

set_option maxRecDepth 100000 in
theorem calChunk29 : rangeOK 87000 3000 = true := by decide

set_option maxRecDepth 100000 in
theorem calChunk30 : rangeOK 90000 3000 = true := by decide

set_option maxRecDepth 100000 in
theorem calChunk31 : rangeOK 93000 3000 = true := by decide

set_option maxRecDepth 100000 in
theorem calChunk32 : rangeOK 96000 3000 = true := by decide

set_option maxRecDepth 100000 in
theorem calChunk33 : rangeOK 99000 3000 = true := by decide

set_option maxRecDepth 100000 in
theorem calChunk34 : rangeOK 102000 3000 = true := by decide

set_option maxRecDepth 100000 in
theorem calChunk35 : rangeOK 105000 3000 = true := by decide

set_option maxRecDepth 100000 in
theorem calChunk36 : rangeOK 108000 3000 = true := by decide

set_option maxRecDepth 100000 in
theorem calChunk37 : rangeOK 111000 3000 = true := by decide

set_option maxRecDepth 100000 in
theorem calChunk38 : rangeOK 114000 3000 = true := by decide

set_option maxRecDepth 100000 in
theorem calChunk39 : rangeOK 117000 3000 = true := by decide

set_option maxRecDepth 100000 in
theorem calChunk40 : rangeOK 120000 3000 = true := by decide

set_option maxRecDepth 100000 in
theorem calChunk41 : rangeOK 123000 3000 = true := by decide

set_option maxRecDepth 100000 in
theorem calChunk42 : rangeOK 126000 3000 = true := by decide

set_option maxRecDepth 100000 in
theorem calChunk43 : rangeOK 129000 3000 = true := by decide

set_option maxRecDepth 100000 in
theorem calChunk44 : rangeOK 132000 3000 = true := by decide

set_option maxRecDepth 100000 in
theorem calChunk45 : rangeOK 135000 3000 = true := by decide

set_option maxRecDepth 100000 in
theorem calChunk46 : rangeOK 138000 3000 = true := by decide

set_option maxRecDepth 100000 in
theorem calChunk47 : rangeOK 141000 3000 = true := by decide

set_option maxRecDepth 100000 in
theorem calChunk48 : rangeOK 144000 2097 = true := by decide

/-- Exhaustive verification of `doyOK` over one full 400-year era. -/
theorem rangeOK_full : rangeOK 0 146097 = true := by
  have a0 := calChunk0
  have a1 : rangeOK 0 6000 = true := rangeOK_join 3000 0 3000 calChunk1 a0
  have a2 : rangeOK 0 9000 = true := rangeOK_join 3000 0 6000 calChunk2 a1
  have a3 : rangeOK 0 12000 = true := rangeOK_join 3000 0 9000 calChunk3 a2
  have a4 : rangeOK 0 15000 = true := rangeOK_join 3000 0 12000 calChunk4 a3
  have a5 : rangeOK 0 18000 = true := rangeOK_join 3000 0 15000 calChunk5 a4
  have a6 : rangeOK 0 21000 = true := rangeOK_join 3000 0 18000 calChunk6 a5
  have a7 : rangeOK 0 24000 = true := rangeOK_join 3000 0 21000 calChunk7 a6
  have a8 : rangeOK 0 27000 = true := rangeOK_join 3000 0 24000 calChunk8 a7
  have a9 : rangeOK 0 30000 = true := rangeOK_join 3000 0 27000 calChunk9 a8
  have a10 : rangeOK 0 33000 = true := rangeOK_join 3000 0 30000 calChunk10 a9
  have a11 : rangeOK 0 36000 = true := rangeOK_join 3000 0 33000 calChunk11 a10
  have a12 : rangeOK 0 39000 = true := rangeOK_join 3000 0 36000 calChunk12 a11
  have a13 : rangeOK 0 42000 = true := rangeOK_join 3000 0 39000 calChunk13 a12
  have a14 : rangeOK 0 45000 = true := rangeOK_join 3000 0 42000 calChunk14 a13
  have a15 : rangeOK 0 48000 = true := rangeOK_join 3000 0 45000 calChunk15 a14
  have a16 : rangeOK 0 51000 = true := rangeOK_join 3000 0 48000 calChunk16 a15
  have a17 : rangeOK 0 54000 = true := rangeOK_join 3000 0 51000 calChunk17 a16
  have a18 : rangeOK 0 57000 = true := rangeOK_join 3000 0 54000 calChunk18 a17
  have a19 : rangeOK 0 60000 = true := rangeOK_join 3000 0 57000 calChunk19 a18
  have a20 : rangeOK 0 63000 = true := rangeOK_join 3000 0 60000 calChunk20 a19
  have a21 : rangeOK 0 66000 = true := rangeOK_join 3000 0 63000 calChunk21 a20
  have a22 : rangeOK 0 69000 = true := rangeOK_join 3000 0 66000 calChunk22 a21
  have a23 : rangeOK 0 72000 = true := rangeOK_join 3000 0 69000 calChunk23 a22
  have a24 : rangeOK 0 75000 = true := rangeOK_join 3000 0 72000 calChunk24 a23
  have a25 : rangeOK 0 78000 = true := rangeOK_join 3000 0 75000 calChunk25 a24
  have a26 : rangeOK 0 81000 = true := rangeOK_join 3000 0 78000 calChunk26 a25
  have a27 : rangeOK 0 84000 = true := rangeOK_join 3000 0 81000 calChunk27 a26
  have a28 : rangeOK 0 87000 = true := rangeOK_join 3000 0 84000 calChunk28 a27
  have a29 : rangeOK 0 90000 = true := rangeOK_join 3000 0 87000 calChunk29 a28
  have a30 : rangeOK 0 93000 = true := rangeOK_join 3000 0 90000 calChunk30 a29
  have a31 : rangeOK 0 96000 = true := rangeOK_join 3000 0 93000 calChunk31 a30
  have a32 : rangeOK 0 99000 = true := rangeOK_join 3000 0 96000 calChunk32 a31
  have a33 : rangeOK 0 102000 = true := rangeOK_join 3000 0 99000 calChunk33 a32
  have a34 : rangeOK 0 105000 = true := rangeOK_join 3000 0 102000 calChunk34 a33
  have a35 : rangeOK 0 108000 = true := rangeOK_join 3000 0 105000 calChunk35 a34
  have a36 : rangeOK 0 111000 = true := rangeOK_join 3000 0 108000 calChunk36 a35
  have a37 : rangeOK 0 114000 = true := rangeOK_join 3000 0 111000 calChunk37 a36
  have a38 : rangeOK 0 117000 = true := rangeOK_join 3000 0 114000 calChunk38 a37
  have a39 : rangeOK 0 120000 = true := rangeOK_join 3000 0 117000 calChunk39 a38
  have a40 : rangeOK 0 123000 = true := rangeOK_join 3000 0 120000 calChunk40 a39
  have a41 : rangeOK 0 126000 = true := rangeOK_join 3000 0 123000 calChunk41 a40
  have a42 : rangeOK 0 129000 = true := rangeOK_join 3000 0 126000 calChunk42 a41
  have a43 : rangeOK 0 132000 = true := rangeOK_join 3000 0 129000 calChunk43 a42
  have a44 : rangeOK 0 135000 = true := rangeOK_join 3000 0 132000 calChunk44 a43
  have a45 : rangeOK 0 138000 = true := rangeOK_join 3000 0 135000 calChunk45 a44
  have a46 : rangeOK 0 141000 = true := rangeOK_join 3000 0 138000 calChunk46 a45
  have a47 : rangeOK 0 144000 = true := rangeOK_join 3000 0 141000 calChunk47 a46
  have a48 : rangeOK 0 146097 = true := rangeOK_join 2097 0 144000 calChunk48 a47
  exact a48

/-- Pointwise form of the exhaustive check. -/
theorem doyOK_all (i : Nat) (hi : i < 146097) : doyOK i = true := by
  have := rangeOK_sound 0 146097 rangeOK_full i hi
  simpa using this

/-- Day-of-year bounds transferred to the integers, in the exact shape
needed inside the roundtrip proof. -/
theorem doy_bounds_int (doe q1 q2 q3 yoe q4 q5 : Int) (h0 : 0 ≤ doe) (h1 : doe < 146097)
    (e1 : q1 = doe / 1460) (e2 : q2 = doe / 36524) (e3 : q3 = doe / 146096)
    (e4 : yoe = (doe - q1 + q2 - q3) / 365) (e5 : q4 = yoe / 4) (e6 : q5 = yoe / 100) :
    0 ≤ doe - (365 * yoe + q4 - q5) ∧ doe - (365 * yoe + q4 - q5) ≤ 365 := by
  subst e6 e5 e4 e3 e2 e1
  obtain ⟨n, rfl⟩ : ∃ n : Nat, doe = (n : Int) := ⟨doe.toNat, by omega⟩
  have hn : n < 146097 := by exact_mod_cast h1
  have hOK := doyOK_all n hn
  simp only [doyOK, Bool.and_eq_true, Nat.ble_eq] at hOK
  have c1 : (n : Int) / 1460 = ((n / 1460 : Nat) : Int) := (Int.ofNat_ediv n 1460).symm
  have c2 : (n : Int) / 36524 = ((n / 36524 : Nat) : Int) := (Int.ofNat_ediv n 36524).symm
  have c3 : (n : Int) / 146096 = ((n / 146096 : Nat) : Int) := (Int.ofNat_ediv n 146096).symm
  rw [c1, c2, c3]
  have c4 : (n : Int) - ((n / 1460 : Nat) : Int) + ((n / 36524 : Nat) : Int) -
      ((n / 146096 : Nat) : Int) = ((n - n / 1460 + n / 36524 - n / 146096 : Nat) : Int) := by
    omega
  rw [c4]
  have c5 : ((n - n / 1460 + n / 36524 - n / 146096 : Nat) : Int) / 365 =
      ((yoeOf n : Nat) : Int) := by
    rw [yoeOf]
    exact (Int.ofNat_ediv _ 365).symm
  rw [c5]
  have c6 : ((yoeOf n : Nat) : Int) / 4 = ((yoeOf n / 4 : Nat) : Int) :=
    (Int.ofNat_ediv _ 4).symm
  have c7 : ((yoeOf n : Nat) : Int) / 100 = ((yoeOf n / 100 : Nat) : Int) :=
    (Int.ofNat_ediv _ 100).symm
  rw [c6, c7]
  omega

/-- Roundtrip on the integer cores: converting a day number to a civil
triple and back is the identity. -/
theorem daysFromCivilI_civilFromDaysI (z : Int) :
    daysFromCivilI (civilFromDaysI z).1 (civilFromDaysI z).2.1 (civilFromDaysI z).2.2 = z := by
  unfold daysFromCivilI civilFromDaysI
  dsimp only
  set Z := z + 719468 with hZ
  set era := Z / 146097 with hera
  set doe := Z - era * 146097 with hdoe
  have hdoeB : 0 ≤ doe ∧ doe < 146097 := by omega
  set q1 := doe / 1460 with hq1
  set q2 := doe / 36524 with hq2
  set q3 := doe / 146096 with hq3
  set yoe := (doe - q1 + q2 - q3) / 365 with hyoe
  have hyoeB : 0 ≤ yoe ∧ yoe ≤ 399 := by omega
  set q4 := yoe / 4 with hq4
  set q5 := yoe / 100 with hq5
  set doy := doe - (365 * yoe + q4 - q5) with hdoy
  have hdoyB : 0 ≤ doy ∧ doy ≤ 365 :=
    doy_bounds_int doe q1 q2 q3 yoe q4 q5 hdoeB.1 hdoeB.2 hq1 hq2 hq3 hyoe hq4 hq5
  set mp := (5 * doy + 2) / 153 with hmp
  have hmpB : 0 ≤ mp ∧ mp ≤ 11 := by omega
  have hb1 : (yoe + era * 400) / 400 = era := by
    rw [Int.add_mul_ediv_right yoe era (by norm_num : (400:Int) ≠ 0),
        Int.ediv_eq_zero_of_lt hyoeB.1 (by omega)]
    ring
  rcases lt_or_ge mp 10 with hc | hc
  · simp only [if_pos hc]
    have h2 : ¬(mp + 3 ≤ 2) := by omega
    have h3 : 3 ≤ mp + 3 := by omega
    simp only [if_neg h2, if_pos h3]
    have e1 : mp + 3 - 3 = mp := by ring
    rw [e1, hb1]
    have e4 : yoe + era * 400 - era * 400 = yoe := by ring
    rw [e4]
    omega
  · have hc' : ¬ mp < 10 := by omega
    simp only [if_neg hc']
    have h2 : mp - 9 ≤ 2 := by omega
    have h3 : ¬(3 ≤ mp - 9) := by omega
    simp only [if_pos h2, if_neg h3]
    have e2 : mp - 9 + 9 = mp := by ring
    have e3 : yoe + era * 400 + 1 - 1 = yoe + era * 400 := by ring
    rw [e2, e3, hb1]
    have e4 : yoe + era * 400 - era * 400 = yoe := by ring
    rw [e4]
    omega

/-- Bounds for the month and day produced by `civilFromDaysI`: the month is
in 1..12 and the day in 1..31. -/
theorem civilFromDaysI_bounds (z : Int) :
    1 ≤ (civilFromDaysI z).2.1 ∧ (civilFromDaysI z).2.1 ≤ 12 ∧
      1 ≤ (civilFromDaysI z).2.2 ∧ (civilFromDaysI z).2.2 ≤ 31 := by
  unfold civilFromDaysI
  dsimp only
  set Z := z + 719468 with hZ
  set era := Z / 146097 with hera
  set doe := Z - era * 146097 with hdoe
  have hdoeB : 0 ≤ doe ∧ doe < 146097 := by omega
  set q1 := doe / 1460 with hq1
  set q2 := doe / 36524 with hq2
  set q3 := doe / 146096 with hq3
  set yoe := (doe - q1 + q2 - q3) / 365 with hyoe
  have hyoeB : 0 ≤ yoe ∧ yoe ≤ 399 := by omega
  set q4 := yoe / 4 with hq4
  set q5 := yoe / 100 with hq5
  set doy := doe - (365 * yoe + q4 - q5) with hdoy
  have hdoyB : 0 ≤ doy ∧ doy ≤ 365 :=
    doy_bounds_int doe q1 q2 q3 yoe q4 q5 hdoeB.1 hdoeB.2 hq1 hq2 hq3 hyoe hq4 hq5
  set mp := (5 * doy + 2) / 153 with hmp
  have hmpB : 0 ≤ mp ∧ mp ≤ 11 := by omega
  split_ifs <;> omega

/-- Roundtrip: converting a day number to a civil triple and back is the
identity.  This is the key calendrical fact used to show that timezone
conversion preserves the denoted instant. -/
theorem daysFromCivil_civilFromDays (z : Int) :
    daysFromCivil (civilFromDays z).1 (civilFromDays z).2.1 (civilFromDays z).2.2 = z := by
  have hb := civilFromDaysI_bounds z
  have hr := daysFromCivilI_civilFromDaysI z
  unfold daysFromCivil civilFromDays
  rw [Int.toNat_of_nonneg (by omega), Int.toNat_of_nonneg (by omega)]
  exact hr

/-- Timezone conversion preserves the denoted instant. -/
theorem toEpochSeconds_astimezone (d : PyDateTime) (tz : Int) :
    toEpochSeconds (astimezone d tz) = toEpochSeconds d := by
  unfold astimezone
  dsimp only
  unfold toEpochSeconds tzOrSystem
  dsimp only
  rw [daysFromCivil_civilFromDays]
  simp only [Option.getD_some]
  omega

/-! ## Helper lemmas -/

theorem startsWithChars_iff (n : List Char) : ∀ l, startsWithChars n l = true ↔ n <+: l := by
  induction n with
  | nil => intro l; simp [startsWithChars]
  | cons a as ih =>
      intro l
      cases l with
      | nil => simp [startsWithChars]
      | cons b bs =>
          simp [startsWithChars, List.cons_prefix_cons, ih]

theorem infixAux_iff (n : List Char) : ∀ l, infixAux n l = true ↔ n <:+: l := by
  intro l
  induction l with
  | nil =>
      simp only [infixAux, List.isEmpty_iff]
      constructor
      · rintro rfl; exact List.infix_rfl
      · intro h; exact List.eq_nil_of_infix_nil h
  | cons c t ih =>
      rw [infixAux]
      simp [startsWithChars_iff, ih, List.infix_cons_iff]

theorem substrContains_iff (n h : String) :
    substrContains n h = true ↔ n.toList <:+: h.toList := by
  unfold substrContains
  exact infixAux_iff n.toList h.toList

theorem ymAt_decomp (l : List Char) (h : ymAt l = true) :
    ∃ a b c d post, l = '/' :: '2' :: '0' :: a :: b :: '/' :: c :: d :: '/' :: post ∧
      a.isDigit = true ∧ b.isDigit = true ∧ c.isDigit = true ∧ d.isDigit = true := by
  unfold ymAt at h
  split at h
  · rename_i a b c d post
    simp only [Bool.and_eq_true] at h
    exact ⟨a, b, c, d, post, rfl, h.1.1.1, h.1.1.2, h.1.2, h.2⟩
  · exact absurd h (by simp)

theorem ymAt_intro (a b c d : Char) (post : List Char) (ha : a.isDigit = true)
    (hb : b.isDigit = true) (hc : c.isDigit = true) (hd : d.isDigit = true) :
    ymAt ('/' :: '2' :: '0' :: a :: b :: '/' :: c :: d :: '/' :: post) = true := by
  show (a.isDigit && b.isDigit && c.isDigit && d.isDigit) = true
  simp [ha, hb, hc, hd]

theorem hasYM_iff : ∀ l : List Char, hasYM l = true ↔
    ∃ pre a b c d post, l = pre ++ '/' :: '2' :: '0' :: a :: b :: '/' :: c :: d :: '/' :: post ∧
      a.isDigit = true ∧ b.isDigit = true ∧ c.isDigit = true ∧ d.isDigit = true := by
  intro l
  induction l with
  | nil =>
      constructor
      · intro h; exact absurd h (by simp [hasYM])
      · rintro ⟨pre, a, b, c, d, post, he, -⟩
        cases pre <;> simp_all
  | cons x t ih =>
      rw [hasYM]
      simp only [Bool.or_eq_true, ih]
      constructor
      · rintro (h | ⟨pre, a, b, c, d, post, rfl, h4⟩)
        · obtain ⟨a, b, c, d, post, he2, h4⟩ := ymAt_decomp _ h
          exact ⟨[], a, b, c, d, post, by rw [List.nil_append]; exact he2, h4⟩
        · exact ⟨x :: pre, a, b, c, d, post, rfl, h4⟩
      · rintro ⟨pre, a, b, c, d, post, he, h4⟩
        cases pre with
        | nil =>
            left
            rw [List.nil_append] at he
            rw [he]
            exact ymAt_intro a b c d post h4.1 h4.2.1 h4.2.2.1 h4.2.2.2
        | cons y ys =>
            right
            rw [List.cons_append] at he
            injection he with h1 h2
            exact ⟨ys, a, b, c, d, post, h2, h4⟩

theorem pyAdd_mem (acc : List String) (x y : String) (h : y ∈ pyAdd acc x) :
    y ∈ acc ∨ y = x := by
  unfold pyAdd at h
  split_ifs at h
  · exact Or.inl h
  · rcases List.mem_append.mp h with h | h
    · exact Or.inl h
    · exact Or.inr (List.mem_singleton.mp h)

theorem pyAdd_nodup (acc : List String) (x : String) (h : acc.Nodup) : (pyAdd acc x).Nodup := by
  unfold pyAdd
  split_ifs with hc
  · exact h
  · have hx : x ∉ acc := fun hm => hc (List.elem_iff.mpr hm)
    rw [List.nodup_append]
    refine ⟨h, List.nodup_singleton x, ?_⟩
    intro a ha hax
    rw [List.mem_singleton] at hax
    exact hx (hax ▸ ha)

theorem pass1_nodup (base : String) (limit : Nat) :
    ∀ (anchors : List (Option String)) (acc : List String), acc.Nodup →
      (pass1 base limit anchors acc).Nodup := by
  intro anchors
  induction anchors with
  | nil => intro acc h; simpa [pass1] using h
  | cons o t ih =>
      intro acc h
      cases o with
      | none => rw [pass1]; exact ih acc h
      | some hh =>
          rw [pass1]
          dsimp only
          split_ifs with h1 h2
          · exact pyAdd_nodup acc _ h
          · exact ih _ (pyAdd_nodup acc _ h)
          · exact ih acc h

theorem pass2_nodup (base : String) (limit : Nat) :
    ∀ (anchors : List String) (acc : List String), acc.Nodup →
      (pass2 base limit anchors acc).Nodup := by
  intro anchors
  induction anchors with
  | nil => intro acc h; simpa [pass2] using h
  | cons hh t ih =>
      intro acc h
      rw [pass2]
      by_cases hq : is_article_url hh = true
      · simp only [if_pos hq]
        split_ifs
        · exact pyAdd_nodup acc _ h
        · exact ih _ (pyAdd_nodup acc _ h)
      · simp only [if_neg hq]
        split_ifs
        · exact h
        · exact ih _ h

theorem collectLinks_nodup (page : CategoryPage) (limit : Nat) :
    (collectLinks page limit).Nodup := by
  unfold collectLinks
  dsimp only
  split_ifs
  · exact pass2_nodup _ _ _ _ (pass1_nodup _ _ _ _ List.nodup_nil)
  · exact pass1_nodup _ _ _ _ List.nodup_nil

theorem pass1_mem (base : String) (limit : Nat) :
    ∀ (anchors : List (Option String)) (acc : List String) (y : String),
      y ∈ pass1 base limit anchors acc →
      y ∈ acc ∨ ∃ h, some h ∈ anchors ∧ is_article_url h = true ∧ y = normalize_link h base := by
  intro anchors
  induction anchors with
  | nil => intro acc y h; rw [pass1] at h; exact Or.inl h
  | cons o t ih =>
      intro acc y h
      cases o with
      | none =>
          rw [pass1] at h
          rcases ih acc y h with h | ⟨hh, hm, ha, he⟩
          · exact Or.inl h
          · exact Or.inr ⟨hh, List.mem_cons_of_mem _ hm, ha, he⟩
      | some a0 =>
          rw [pass1] at h
          dsimp only at h
          split_ifs at h with h1 h2
          · rcases pyAdd_mem acc _ y h with h | h
            · exact Or.inl h
            · exact Or.inr ⟨a0, List.mem_cons_self _ _, h1, h⟩
          · rcases ih _ y h with h | ⟨hh, hm, ha, he⟩
            · rcases pyAdd_mem acc _ y h with h | h
              · exact Or.inl h
              · exact Or.inr ⟨a0, List.mem_cons_self _ _, h1, h⟩
            · exact Or.inr ⟨hh, List.mem_cons_of_mem _ hm, ha, he⟩
          · rcases ih acc y h with h | ⟨hh, hm, ha, he⟩
            · exact Or.inl h
            · exact Or.inr ⟨hh, List.mem_cons_of_mem _ hm, ha, he⟩

theorem pass2_mem (base : String) (limit : Nat) :
    ∀ (anchors : List String) (acc : List String) (y : String),
      y ∈ pass2 base limit anchors acc →
      y ∈ acc ∨ ∃ h, h ∈ anchors ∧ is_article_url h = true ∧ y = normalize_link h base := by
  intro anchors
  induction anchors with
  | nil => intro acc y h; rw [pass2] at h; exact Or.inl h
  | cons a0 t ih =>
      intro acc y h
      rw [pass2] at h
      by_cases hq : is_article_url a0 = true
      · simp only [if_pos hq] at h
        split_ifs at h
        · rcases pyAdd_mem acc _ y h with h | h
          · exact Or.inl h
          · exact Or.inr ⟨a0, List.mem_cons_self _ _, hq, h⟩
        · rcases ih _ y h with h | ⟨hh, hm, ha, he⟩
          · rcases pyAdd_mem acc _ y h with h | h
            · exact Or.inl h
            · exact Or.inr ⟨a0, List.mem_cons_self _ _, hq, h⟩
          · exact Or.inr ⟨hh, List.mem_cons_of_mem _ hm, ha, he⟩
      · simp only [if_neg hq] at h
        split_ifs at h
        · exact Or.inl h
        · rcases ih _ y h with h | ⟨hh, hm, ha, he⟩
          · exact Or.inl h
          · exact Or.inr ⟨hh, List.mem_cons_of_mem _ hm, ha, he⟩

theorem collectLinks_mem (page : CategoryPage) (limit : Nat) (y : String)
    (h : y ∈ collectLinks page limit) :
    ∃ hh, (some hh ∈ page.h3Anchors ∨ hh ∈ page.allAnchors) ∧ is_article_url hh = true ∧
      y = normalize_link hh page.url := by
  unfold collectLinks at h
  dsimp only at h
  split_ifs at h
  · rcases pass2_mem _ _ _ _ _ h with h | ⟨hh, hm, ha, he⟩
    · rcases pass1_mem _ _ _ _ _ h with h | ⟨hh, hm, ha, he⟩
      · exact absurd h (List.not_mem_nil y)
      · exact ⟨hh, Or.inl hm, ha, he⟩
    · exact ⟨hh, Or.inr hm, ha, he⟩
  · rcases pass1_mem _ _ _ _ _ h with h | ⟨hh, hm, ha, he⟩
    · exact absurd h (List.not_mem_nil y)
    · exact ⟨hh, Or.inl hm, ha, he⟩

theorem take_eq_self_of_le {α : Type} : ∀ (l : List α) (n : Nat), l.length ≤ n → l.take n = l := by
  intro l
  induction l with
  | nil => intro n _; simp
  | cons x t ih =>
      intro n h
      cases n with
      | zero => simp at h
      | succ m =>
          rw [List.take_succ_cons, ih m (by simpa using h)]

/-! ## Claim theorems -/

/-- C1: the publish-datetime extraction tries exactly four sources in fixed
priority order (published-time meta tag, linked-data blocks, time element,
full-page text) and returns the first success, never consulting a later
source once an earlier one succeeds; on a document with a
`published_time` meta value of `2025-09-10T08:00:00Z` it returns exactly
that instant even though a linked-data block is also present, and on the
same document without the meta tag it returns the linked-data instant
`2025-09-10T08:00:00+09:00`, which denotes the instant nine hours before
the meta one. -/
theorem claim_C1_datetime_priority :
    (∀ (s : Soup) (d : PyDateTime),
        get_meta_datetime s "article:published_time" = some d →
        extract_published s = some d) ∧
    (∀ s : Soup, get_meta_datetime s "article:published_time" = none →
        extract_published s =
          opOr (get_ldjson_datetime s)
            (opOr (get_time_tag_datetime s) (get_text_datetime_fallback s))) ∧
    (∀ (s : Soup) (d : PyDateTime), get_meta_datetime s "article:published_time" = none →
        get_ldjson_datetime s = some d → extract_published s = some d) ∧
    extract_published docMetaAndLd = some dtZ ∧
    extract_published docLdOnly = some dtK ∧
    toEpochSeconds dtK = toEpochSeconds dtZ - 9 * 3600 := by
  refine ⟨?_, ?_, ?_, by decide, by decide, by decide⟩
  · intro s d h
    unfold extract_published
    rw [h]
    rfl
  · intro s h
    unfold extract_published
    rw [h]
    rfl
  · intro s d h1 h2
    unfold extract_published
    rw [h1, h2]
    rfl

theorem claim_C1_datetime_priority_witness :
    extract_published docMetaAndLd = some dtZ ∧ extract_published docLdOnly = some dtK :=
  ⟨claim_C1_datetime_priority.1 docMetaAndLd dtZ (by decide),
   claim_C1_datetime_priority.2.2.1 docLdOnly dtK (by decide) (by decide)⟩

/-- C2 (counterexample): the collector's output order is not document
order.  `list(links)` serialises a Python `set`, whose iteration order is
unspecified (string hashing is randomised per process), so reversal is a
legitimate serialisation of the collected set; under it the two heading
links come out in reversed document order. -/
theorem claim_C2_counterexample :
    (collectLinks cexPage 10).reverse.Perm (collectLinks cexPage 10) ∧
    cexPage.h3Anchors = [some "https://techcrunch.com/2025/09/10/alpha/",
                         some "https://techcrunch.com/2025/09/11/beta/"] ∧
    get_article_links List.reverse cexPage 10 =
      ["https://techcrunch.com/2025/09/11/beta/",
       "https://techcrunch.com/2025/09/10/alpha/"] := by
  exact ⟨List.reverse_perm _, rfl, by decide⟩

/-- C2 (amended): for every category page, requested maximum and every
serialisation of the link set, the Link Collector returns a sequence with
no duplicate URL and length at most the requested count (order is
unspecified, being the set's serialisation order). -/
theorem claim_C2_amended (enum : List String → List String) (page : CategoryPage)
    (limit : Nat) (henum : ∀ l : List String, (enum l).Perm l) :
    (get_article_links enum page limit).Nodup ∧
    (get_article_links enum page limit).length ≤ limit := by
  constructor
  · have h1 : (collectLinks page limit).Nodup := collectLinks_nodup page limit
    have h2 : (enum (collectLinks page limit)).Nodup := ((henum _).symm).nodup h1
    exact h2.sublist (List.take_sublist limit _)
  · exact List.length_take_le _ _

theorem claim_C2_amended_witness :
    (get_article_links id cexPage 10).Nodup ∧ (get_article_links id cexPage 10).length ≤ 10 :=
  claim_C2_amended id cexPage 10 (fun l => List.Perm.refl l)

/-- C3: the Day Filter returns true iff the record's publish timestamp
converted to KST has a date component equal to the target date; a
timestamp one local day before or after the target is excluded, and a
record with no resolvable publish timestamp is excluded in today-only
mode. -/
theorem claim_C3_day_filter :
    (∀ (d today : PyDateTime),
        is_today_kst (some d) today = true ↔
          dateTriple (astimezone d KST) = dateTriple today) ∧
    (∀ today : PyDateTime, is_today_kst none today = false) ∧
    (∀ (u ti b : String) (today : PyDateTime),
        keepArticle ⟨u, ti, none, none, b⟩ today = false) ∧
    is_today_kst (some ⟨2025, 9, 9, 23, 0, 0, 0, some 0⟩) kstNoon = true ∧
    is_today_kst (some ⟨2025, 9, 9, 8, 0, 0, 0, some 540⟩) kstNoon = false ∧
    is_today_kst (some ⟨2025, 9, 11, 8, 0, 0, 0, some 540⟩) kstNoon = false := by
  refine ⟨?_, fun _ => rfl, fun _ _ _ _ => rfl, by decide, by decide, by decide⟩
  intro d today
  simp [is_today_kst]

/-- C4 (counterexample): a malformed `date` query value in the feed variant
is not replaced by a default — the `strptime` failure escapes to the outer
handler, which answers with HTTP status 500. -/
theorem claim_C4_counterexample :
    feedStatus (feedMain (some "not-a-date") none (2025, 9, 10) []) = 500 := by
  decide

/-- C4 (amended): invalid numeric query values (`limit`, `sleep`, `n`) are
silently replaced by the documented defaults and never produce an error
response; a malformed `date` value in the feed variant, however, yields a
500 response instead of a default. -/
theorem claim_C4_amended :
    (∀ (v : String) (d lo hi : Int), pyIntParse v = none →
        toIntParam (some v) d lo hi = d) ∧
    (∀ (v : String) (d lo hi : PyFloat), pyFloatParse v = none →
        toFloatParam (some v) d lo hi = d) ∧
    (∀ (v : String) (nowDate : Int × Nat × Nat) (entries : List FeedEntry),
        pyIntParse v = none →
        feedMain none (some v) nowDate entries = feedMain none none nowDate entries ∧
        feedStatus (feedMain none (some v) nowDate entries) = 200) ∧
    (∀ (today url : Option String) (lv sv : String), pyIntParse lv = none →
        pyFloatParse sv = none →
        (tc_crawl_params today url (some lv) (some sv)).2.2.1 = 40 ∧
        (tc_crawl_params today url (some lv) (some sv)).2.2.2 = PyFloat.fin (7 / 10)) := by
  refine ⟨?_, ?_, ?_, ?_⟩
  · intro v d lo hi h
    simp [toIntParam, h]
  · intro v d lo hi h
    simp [toFloatParam, h]
  · intro v nowDate entries h
    constructor
    · simp [feedMain, feedN, h]
    · rfl
  · intro today url lv sv h1 h2
    constructor
    · simp [tc_crawl_params, toIntParam, h1]
    · simp [tc_crawl_params, toFloatParam, h2]

theorem claim_C4_amended_witness :
    toIntParam (some "abc") 40 1 200 = 40 ∧
    toFloatParam (some "zzz") (PyFloat.fin (7 / 10)) (PyFloat.fin 0) (PyFloat.fin 5) =
      PyFloat.fin (7 / 10) ∧
    feedStatus (feedMain none (some "abc") (2025, 9, 10) []) = 200 ∧
    (tc_crawl_params none none (some "abc") (some "zzz")).2.2.1 = 40 :=
  ⟨claim_C4_amended.1 "abc" 40 1 200 (by decide),
   claim_C4_amended.2.1 "zzz" _ _ _ (by decide),
   (claim_C4_amended.2.2.1 "abc" (2025, 9, 10) [] (by decide)).2,
   (claim_C4_amended.2.2.2 none none "abc" "zzz" (by decide) (by decide)).1⟩

/-- C5 (counterexample): the qualification predicate accepts a link whose
host is neither empty nor the target site's domain (nor a subdomain of
it): the code tests substring containment, so `nottechcrunch.com`
qualifies. -/
theorem claim_C5_counterexample :
    is_article_url "https://nottechcrunch.com/2025/09/10/x/" = true ∧
    (urlparseNetlocPath "https://nottechcrunch.com/2025/09/10/x/").1 = "nottechcrunch.com" ∧
    "nottechcrunch.com" ≠ "" ∧
    "nottechcrunch.com" ≠ "techcrunch.com" ∧
    endsWithStr ".techcrunch.com" "nottechcrunch.com" = false := by
  exact ⟨by decide, by decide, by decide, by decide, by decide⟩

/-- C5 (amended): a candidate link qualifies iff its host is empty or
contains `techcrunch.com` as a substring, and its path contains a
slash-delimited segment pair of a four-digit year beginning `20` followed
by a two-digit month; consequently every URL in collector output is the
normalisation of some page anchor that satisfies this predicate. -/
theorem claim_C5_amended :
    (∀ href : String,
        is_article_url href = true ↔
          ((urlparseNetlocPath href).1 = "" ∨
            "techcrunch.com".toList <:+: (urlparseNetlocPath href).1.toList) ∧
          ∃ pre a b c d post,
            (urlparseNetlocPath href).2.toList =
              pre ++ '/' :: '2' :: '0' :: a :: b :: '/' :: c :: d :: '/' :: post ∧
            a.isDigit = true ∧ b.isDigit = true ∧ c.isDigit = true ∧ d.isDigit = true) ∧
    (∀ (enum : List String → List String) (page : CategoryPage) (limit : Nat) (url : String),
        (∀ l : List String, (enum l).Perm l) →
        url ∈ get_article_links enum page limit →
        ∃ href, (some href ∈ page.h3Anchors ∨ href ∈ page.allAnchors) ∧
          is_article_url href = true ∧ url = normalize_link href page.url) := by
  constructor
  · intro href
    unfold is_article_url
    dsimp only
    rw [Bool.and_eq_true, Bool.or_eq_true, substrContains_iff, hasYM_iff]
    constructor
    · rintro ⟨h1, h2⟩
      refine ⟨?_, h2⟩
      rcases h1 with h | h
      · exact Or.inr h
      · exact Or.inl (by simpa using h)
    · rintro ⟨h1, h2⟩
      refine ⟨?_, h2⟩
      rcases h1 with h | h
      · exact Or.inr (by simp [h])
      · exact Or.inl h
  · intro enum page limit url henum hmem
    have h1 : url ∈ enum (collectLinks page limit) := List.mem_of_mem_take hmem
    have h2 : url ∈ collectLinks page limit := (henum _).mem_iff.mp h1
    exact collectLinks_mem page limit url h2

theorem claim_C5_amended_witness :
    ∃ href, (some href ∈ cexPage.h3Anchors ∨ href ∈ cexPage.allAnchors) ∧
      is_article_url href = true ∧
      "https://techcrunch.com/2025/09/10/alpha/" = normalize_link href cexPage.url :=
  claim_C5_amended.2 id cexPage 10 "https://techcrunch.com/2025/09/10/alpha/"
    (fun l => List.Perm.refl l) (by decide)

/-- C6: a parse failure inside any datetime source is swallowed and treated
as that source yielding nothing, the cascade proceeding to the next; when
all four sources fail the record carries `none` for both `published_utc`
and `published_kst` and no error escapes.  `docAllBad` exercises an
unparsable meta value, a malformed JSON script, an unparsable linked-data
date and an unparsable `time` attribute; `docRecovering` shows the cascade
continuing past those failures to a later source. -/
theorem claim_C6_errors_swallowed :
    (∀ (u : String) (s : Soup), extract_published s = none →
        (parse_article u s).published_utc = none ∧ (parse_article u s).published_kst = none) ∧
    (∀ s : Soup, get_meta_datetime s "article:published_time" = none →
        get_ldjson_datetime s = none → get_time_tag_datetime s = none →
        get_text_datetime_fallback s = none → extract_published s = none) ∧
    extract_published docAllBad = none ∧
    (parse_article "u" docAllBad).published_utc = none ∧
    (parse_article "u" docAllBad).published_kst = none ∧
    extract_published docRecovering = some ⟨2025, 9, 10, 0, 0, 0, 0, some 0⟩ := by
  refine ⟨?_, ?_, by decide, by decide, by decide, by decide⟩
  · intro u s h
    unfold parse_article
    dsimp only
    rw [h]
    exact ⟨rfl, rfl⟩
  · intro s h1 h2 h3 h4
    unfold extract_published
    rw [h1, h2, h3, h4]
    rfl

theorem claim_C6_errors_swallowed_witness :
    (parse_article "u" docAllBad).published_utc = none ∧
    (parse_article "u" docAllBad).published_kst = none :=
  claim_C6_errors_swallowed.1 "u" docAllBad (by decide)

/-- C7: on a document with no machine-readable date whose visible text
contains a natural-language date such as `September 10, 2025`, the
extractor returns midnight UTC on that date; in general every value
produced by the human-date parser is a midnight-UTC instant, and when the
first three sources fail the cascade equals the full-text fallback. -/
theorem claim_C7_text_fallback_midnight :
    (∀ (t : String) (d : PyDateTime), parse_human_datetime t = some d →
        d.hour = 0 ∧ d.minute = 0 ∧ d.second = 0 ∧ d.micro = 0 ∧ d.tz = some 0) ∧
    (∀ s : Soup, get_meta_datetime s "article:published_time" = none →
        get_ldjson_datetime s = none → get_time_tag_datetime s = none →
        extract_published s = parse_human_datetime s.fullText) ∧
    extract_published docTextOnly = some ⟨2025, 9, 10, 0, 0, 0, 0, some 0⟩ ∧
    searchHuman docTextOnly.fullText.toList = some (9, 10, 2025) := by
  refine ⟨?_, ?_, by decide, by decide⟩
  · intro t d h
    unfold parse_human_datetime at h
    rcases hs : searchHuman t.toList with _ | ⟨m, dd, y⟩
    · rw [hs] at h
      exact absurd h (by simp)
    · rw [hs] at h
      dsimp only at h
      split_ifs at h
      injection h with h'
      subst h'
      exact ⟨rfl, rfl, rfl, rfl, rfl⟩
  · intro s h1 h2 h3
    unfold extract_published get_text_datetime_fallback
    rw [h1, h2, h3]
    rfl

theorem claim_C7_text_fallback_midnight_witness :
    ((⟨2025, 9, 10, 0, 0, 0, 0, some 0⟩ : PyDateTime).hour = 0 ∧
      (⟨2025, 9, 10, 0, 0, 0, 0, some 0⟩ : PyDateTime).minute = 0 ∧
      (⟨2025, 9, 10, 0, 0, 0, 0, some 0⟩ : PyDateTime).second = 0 ∧
      (⟨2025, 9, 10, 0, 0, 0, 0, some 0⟩ : PyDateTime).micro = 0 ∧
      (⟨2025, 9, 10, 0, 0, 0, 0, some 0⟩ : PyDateTime).tz = some 0) ∧
    extract_published docTextOnly = parse_human_datetime docTextOnly.fullText :=
  ⟨claim_C7_text_fallback_midnight.1 "Posted on September 10, 2025 by staff"
      ⟨2025, 9, 10, 0, 0, 0, 0, some 0⟩ (by decide),
   claim_C7_text_fallback_midnight.2.1 docTextOnly (by decide) (by decide) (by decide)⟩

/-- C8: in every assembled record the local timestamp is present iff the
UTC timestamp is present, and both serialise the same extracted datetime —
the local one as its conversion to KST, which denotes exactly the same
instant as the UTC conversion. -/
theorem claim_C8_local_utc_linkage (u : String) (s : Soup) :
    ((parse_article u s).published_utc.isSome ↔ (parse_article u s).published_kst.isSome) ∧
    ∀ d : PyDateTime, extract_published s = some d →
      (parse_article u s).published_utc = some (pyIsoformat (astimezone d 0)) ∧
      (parse_article u s).published_kst = some (pyIsoformat (astimezone d KST)) ∧
      toEpochSeconds (astimezone d KST) = toEpochSeconds (astimezone d 0) := by
  constructor
  · unfold parse_article
    dsimp only
    cases extract_published s <;> simp
  · intro d h
    unfold parse_article
    dsimp only
    rw [h]
    exact ⟨rfl, rfl, by rw [toEpochSeconds_astimezone, toEpochSeconds_astimezone]⟩

theorem claim_C8_local_utc_linkage_witness :
    ((parse_article "u" docMetaAndLd).published_utc.isSome ↔
      (parse_article "u" docMetaAndLd).published_kst.isSome) ∧
    ((parse_article "u" docMetaAndLd).published_utc = some (pyIsoformat (astimezone dtZ 0)) ∧
      (parse_article "u" docMetaAndLd).published_kst = some (pyIsoformat (astimezone dtZ KST)) ∧
      toEpochSeconds (astimezone dtZ KST) = toEpochSeconds (astimezone dtZ 0)) :=
  ⟨(claim_C8_local_utc_linkage "u" docMetaAndLd).1,
   (claim_C8_local_utc_linkage "u" docMetaAndLd).2 dtZ (by decide)⟩

/-- C9: field extraction is a pure function of the parsed input markup —
the embedding of `parse_article` consults only the document (the source
reads no mutable global state and iterates deterministically), so parsing
the same markup twice yields identical records. -/
theorem claim_C9_parse_deterministic (u : String) (s : Soup) :
    parse_article u s = parse_article u s := rfl

/-- C10: in the feed variant, when no entry's publish time falls on the
target KST date the handler falls back to the first `min n (number of
entries)` entries regardless of date (so the result is nonempty whenever
the feed is), entries without a parsable date get a null
`published_at_kst`, and the final list never exceeds `n` items. -/
theorem claim_C10_feed_fallback :
    (∀ (entries : List FeedEntry) (target : Int × Nat × Nat) (n : Nat),
        feedMatched entries target = [] →
        feedMainItems entries target n = (entries.take n).map feedItemOf ∧
        (feedMainItems entries target n).length = min n entries.length ∧
        (entries ≠ [] → 0 < n → feedMainItems entries target n ≠ [])) ∧
    (∀ (entries : List FeedEntry) (target : Int × Nat × Nat) (n : Nat),
        (feedMainItems entries target n).length ≤ n) ∧
    (∀ e : FeedEntry, e.published_parsed = none → e.updated_parsed = none →
        (feedItemOf e).published_at_kst = none) := by
  refine ⟨?_, ?_, ?_⟩
  · intro entries target n h
    have he : feedMainItems entries target n = (entries.take n).map feedItemOf := by
      unfold feedMainItems
      rw [h]
      simp only [List.isEmpty_nil, if_true]
      apply take_eq_self_of_le
      rw [List.length_map]
      exact List.length_take_le _ _
    refine ⟨he, ?_, ?_⟩
    · rw [he, List.length_map, List.length_take]
    · intro hne hn hcontra
      have hlen : ((entries.take n).map feedItemOf).length = 0 := by
        rw [← he, hcontra]
        rfl
      rw [List.length_map, List.length_take] at hlen
      have hpos : 0 < entries.length := List.length_pos.mpr hne
      omega
  · intro entries target n
    unfold feedMainItems
    exact List.length_take_le _ _
  · intro e h1 h2
    unfold feedItemOf parse_date_to_kst
    rw [h1, h2]
    rfl

theorem claim_C10_feed_fallback_witness :
    feedMainItems [feedE1] (2025, 9, 10) 2 = ([feedE1].take 2).map feedItemOf ∧
    (feedItemOf feedE1).published_at_kst = none :=
  ⟨(claim_C10_feed_fallback.1 [feedE1] (2025, 9, 10) 2 (by decide)).1,
   claim_C10_feed_fallback.2.2 feedE1 rfl rfl⟩

end Crawler
